import Mathlib

/-!
Verification of the XION CW721 command-line scripts (utils/helpers.js,
utils/config.js and the command scripts) against their design specification.

The JavaScript sources are shallowly embedded:

* JS numbers are modelled as exact rationals (`ℚ`).  The scripts only ever
  feed decimal literals with at most seven fractional digits and integer gas
  or balance amounts through these functions, where IEEE-754 doubles and
  exact rationals agree on every value examined below.
* `process.env` is an `Env := String → Option String`; `process.argv` is an
  `Argv := Nat → Option String` (index `i` is `process.argv[i]`).
* Asynchronous SDK calls (wallet derivation, client connection, contract
  queries and executions) are oracles passed to the script embeddings; a
  call that may throw returns an `Except JsError`.
* A script run is a trace of `Effect`s (console lines, SDK calls) together
  with an `Outcome` (normal return versus `process.exit(1)` inside
  `handleError`).
-/

/-! ## JavaScript primitives: environment, argv, truthiness -/

/-- `process.env` viewed as a partial map: `none` models an unset variable. -/
def Env : Type := String → Option String

/-- `process.argv` viewed as a partial map from index to argument. -/
def Argv : Type := Nat → Option String

/-- JS truthiness of a possibly-missing string: `undefined` and `""` are
falsy, every other string is truthy. -/
def jsTruthy : Option String → Bool
  | none => false
  | some s => !(s = "")

/-- The JS `a || b` operator on possibly-missing strings: `a` when truthy,
otherwise `b`. -/
def jsOr (a b : Option String) : Option String :=
  match a with
  | some s => if s = "" then b else some s
  | none => b

/-- The JS `a || d` operator with a (truthy) string literal default. -/
def jsOrElse (a : Option String) (d : String) : String :=
  match a with
  | some s => if s = "" then d else s
  | none => d

/-- Whether `p` is a leading segment of `s` (on characters). -/
def charsStartWith : List Char → List Char → Bool
  | [], _ => true
  | _ :: _, [] => false
  | p :: ps, c :: cs => p = c && charsStartWith ps cs

/-- Whether `pat` occurs somewhere inside `s` (on characters). -/
def charsContain (s pat : List Char) : Bool :=
  match s with
  | [] => pat.isEmpty
  | _ :: rest => charsStartWith pat s || charsContain rest pat

/-- JS `String.prototype.includes`, used by the catch blocks that test
`error.message.includes("not found")`. -/
def stringContains (s pat : String) : Bool :=
  charsContain s.data pat.data

/-! ## Decimal numeral reading and printing (JS `parseFloat`, `parseInt`,
`Number.prototype.toString`, `Number.prototype.toFixed`)

`parseFloat` and `parseInt` are modelled for the inputs the repository
produces: optional leading whitespace, an optional sign, decimal digits with
an optional fractional part and an optional decimal exponent, with any
trailing garbage ignored (`parseFloat("0.025uxion") = 0.025`).  The
hexadecimal `0x` form of `parseInt` and the `Infinity` literal are not
modelled; no caller passes them.  `NaN` results are modelled as `none`. -/

/-- The character for a single decimal digit (`0 ≤ d ≤ 9`). -/
def digitChar (d : Nat) : Char := Char.ofNat (48 + d)

/-- Decimal digit denoted by a character, if any. -/
def charToDigit (c : Char) : Option Nat :=
  if 48 ≤ c.toNat ∧ c.toNat ≤ 57 then some (c.toNat - 48) else none

/-- Split a character list into its maximal leading run of decimal digits
(read as digit values) and the remainder. -/
def takeDigits : List Char → List Nat × List Char
  | [] => ([], [])
  | c :: cs =>
    match charToDigit c with
    | some d =>
      let r := takeDigits cs
      (d :: r.1, r.2)
    | none => ([], c :: cs)

/-- Value of a big-endian digit list. -/
def digitsVal (ds : List Nat) : Nat :=
  ds.foldl (fun a d => 10 * a + d) 0

/-- Skip the leading whitespace that `parseFloat`/`parseInt` ignore. -/
def skipSpaces : List Char → List Char
  | [] => []
  | c :: cs => if c = ' ' ∨ c = '\t' ∨ c = '\n' ∨ c = '\r' then skipSpaces cs else c :: cs

/-- Consume an optional sign; `true` means negative. -/
def takeSign (cs : List Char) : Bool × List Char :=
  match cs with
  | [] => (false, [])
  | c :: rest => if c = '-' then (true, rest) else if c = '+' then (false, rest) else (false, cs)

/-- Read an optional decimal exponent (`e`/`E`, optional sign, digits) after
the mantissa; an `e` not followed by a digit is trailing garbage and the
exponent is 0, exactly as in `parseFloat`. -/
def takeExponent (cs : List Char) : Int :=
  match cs with
  | [] => 0
  | c :: rest =>
    if c = 'e' ∨ c = 'E' then
      let sr := takeSign rest
      let dr := takeDigits sr.2
      if dr.1 = [] then 0
      else if sr.1 then -(digitsVal dr.1 : Int) else (digitsVal dr.1 : Int)
    else 0

/-- The decimal numeral recognised by `parseFloat`, before numeric
interpretation: sign, integer digits, fractional digits, exponent. -/
structure JSDecimal where
  neg : Bool
  intDigits : List Nat
  fracDigits : List Nat
  exp : Int
deriving DecidableEq, Repr

/-- The rational value of a recognised decimal numeral. -/
def JSDecimal.toRat (d : JSDecimal) : ℚ :=
  let mag : ℚ := (digitsVal d.intDigits : ℚ) + (digitsVal d.fracDigits : ℚ) / 10 ^ d.fracDigits.length
  (if d.neg then -mag else mag) * 10 ^ d.exp

/-- The numeral-recognition phase of `parseFloat`: optional whitespace and
sign, digits, an optional `.` with further digits, an optional exponent;
everything after is ignored.  `none` models `NaN` (no digit at all). -/
def parseDecimalJS (s : String) : Option JSDecimal :=
  let cs := skipSpaces s.data
  let sr := takeSign cs
  let ir := takeDigits sr.2
  match ir.2 with
  | '.' :: cs3 =>
    let fr := takeDigits cs3
    if ir.1 = [] ∧ fr.1 = [] then none
    else some ⟨sr.1, ir.1, fr.1, takeExponent fr.2⟩
  | rest =>
    if ir.1 = [] then none
    else some ⟨sr.1, ir.1, [], takeExponent rest⟩

/-- JS `parseFloat` on the decimal numerals this repository handles;
`none` models `NaN`. -/
def parseFloatJS (s : String) : Option ℚ :=
  (parseDecimalJS s).map JSDecimal.toRat

/-- JS `parseInt` (decimal form) on the numerals this repository handles;
`none` models `NaN`.  It reads the maximal leading run of digits and ignores
the rest, so `parseInt("12.9") = 12`. -/
def parseIntJS (s : String) : Option Int :=
  let cs := skipSpaces s.data
  let sr := takeSign cs
  let dr := takeDigits sr.2
  if dr.1 = [] then none
  else some (if sr.1 then -(digitsVal dr.1 : Int) else (digitsVal dr.1 : Int))

/-- Little-endian decimal digits with explicit fuel (structural recursion,
so that concrete instances evaluate); `[]` for zero. -/
def natDigitsRevAux : Nat → Nat → List Nat
  | 0, _ => []
  | _ + 1, 0 => []
  | fuel + 1, n + 1 => ((n + 1) % 10) :: natDigitsRevAux fuel ((n + 1) / 10)

/-- Little-endian decimal digits of a natural number (`[]` for zero);
proved below to agree with `Nat.digits 10`. -/
def natDigitsRev (n : Nat) : List Nat := natDigitsRevAux n n

/-- Big-endian decimal digits of a natural number, `[0]` for zero —
the digits that JS `Number.prototype.toString` prints. -/
def natDigitsBE (n : Nat) : List Nat :=
  if n = 0 then [0] else (natDigitsRev n).reverse

/-- Decimal character representation of a natural number. -/
def natToChars (n : Nat) : List Char :=
  (natDigitsBE n).map digitChar

/-- A six-digit zero-padded digit list (the fractional digits printed by
`toFixed(6)`). -/
def padDigits6 (m : Nat) : List Nat :=
  List.replicate (6 - ((natDigitsRev m).reverse).length) 0 ++ (natDigitsRev m).reverse

/-- Character form of `padDigits6`. -/
def pad6Chars (m : Nat) : List Char :=
  (padDigits6 m).map digitChar

/-- JS `x.toFixed(6)` on an exact rational: round `x·10⁶` to the nearest
integer and print it with six fractional digits.  The JS version rounds the
underlying double; on every value the repository formats the scaled value is
an exact integer, so no rounding ambiguity arises. -/
def toFixed6 (q : ℚ) : String :=
  let n : ℤ := round (q * 1000000)
  let m : Nat := n.natAbs
  let body : List Char := natToChars (m / 1000000) ++ '.' :: pad6Chars (m % 1000000)
  String.mk (if n < 0 then '-' :: body else body)

/-! ## utils/config.js -/

/-- Faucet pointers from `utils/config.js`. -/
structure FaucetInfo where
  discord : String
  command : String
deriving DecidableEq, Repr

/-- The configuration record shape of `utils/config.js`. -/
structure XionConfig where
  chainId : String
  chainName : String
  rpcEndpoint : String
  restEndpoint : String
  addressPrefix : String
  gasPrice : String
  gasAdjustment : ℚ
  denom : String
  decimals : Nat
  cw721MetadataOnchainCodeId : Nat
  faucet : FaucetInfo
deriving DecidableEq, Repr

/-- `XION_CONFIG` from `utils/config.js` (testnet). -/
def XION_CONFIG : XionConfig :=
  { chainId := "xion-testnet-2"
    chainName := "XION Testnet"
    rpcEndpoint := "https://rpc.xion-testnet-2.burnt.com:443"
    restEndpoint := "https://api.xion-testnet-2.burnt.com"
    addressPrefix := "xion"
    gasPrice := "0.025uxion"
    gasAdjustment := 13 / 10
    denom := "uxion"
    decimals := 6
    cw721MetadataOnchainCodeId := 525
    faucet :=
      { discord := "https://discord.gg/burnt"
        command := "/faucet [your-xion-address]" } }

/-! ## utils/helpers.js: amount conversion and fees -/

/-- A JS `string | number` argument. -/
inductive JSVal where
  | num (q : ℚ)
  | str (s : String)
deriving DecidableEq, Repr

/-- `formatXionAmount` from `utils/helpers.js`: strings go through
`parseInt`, then the amount is divided by `10^decimals` and printed with
`toFixed(6)`.  A `NaN` from `parseInt` propagates to the string `"NaN"`. -/
def formatXionAmount (amount : JSVal) : String :=
  match amount with
  | .num q => toFixed6 (q / 10 ^ XION_CONFIG.decimals)
  | .str s =>
    match parseIntJS s with
    | some n => toFixed6 ((n : ℚ) / 10 ^ XION_CONFIG.decimals)
    | none => "NaN"

/-- `parseXionAmount` from `utils/helpers.js`: strings go through
`parseFloat`, then the amount is multiplied by `10^decimals` and passed to
`Math.floor`, whose result is printed with `toString()`.  A `NaN` from
`parseFloat` propagates to the string `"NaN"`. -/
def parseXionAmount (amount : JSVal) : String :=
  match amount with
  | .num q => toString (⌊q * 10 ^ XION_CONFIG.decimals⌋ : ℤ)
  | .str s =>
    match parseFloatJS s with
    | some q => toString (⌊q * 10 ^ XION_CONFIG.decimals⌋ : ℤ)
    | none => "NaN"

/-- A `{ denom, amount }` coin record (amounts travel as strings). -/
structure Coin where
  denom : String
  amount : String
deriving DecidableEq, Repr

/-- The fee object built by `calculateFee`. -/
structure StdFee where
  amount : List Coin
  gas : String
deriving DecidableEq, Repr

/-- `calculateFee` from `utils/helpers.js`: `parseFloat` the configured gas
price string, take `Math.ceil(gasAmount * gasPrice)` and pair it with the
gas amount.  Gas amounts are integers (every caller passes a `Math.ceil`
result), so the argument is an `ℤ`.  The `getD 0` default is unreachable:
the configured string parses. -/
def calculateFee (gasAmount : ℤ) : StdFee :=
  let gasPrice : ℚ := (parseFloatJS XION_CONFIG.gasPrice).getD 0
  let feeAmount : ℤ := ⌈(gasAmount : ℚ) * gasPrice⌉
  { amount := [{ denom := XION_CONFIG.denom, amount := toString feeAmount }]
    gas := toString gasAmount }

/-- Truncation toward zero, as the specification's words "truncate toward
zero — not round" describe the conversion; kept separate from the source
embedding so the two can be compared. -/
def truncTowardZero (q : ℚ) : ℤ :=
  if q < 0 then -⌊-q⌋ else ⌊q⌋

/-! ## utils/helpers.js: wallet loading and errors

Thrown JS `Error`s are modelled by `JsError`; SDK calls that may throw are
oracles returning `Except JsError`.  The specification's
`ConfigurationError` is the error thrown by `loadWallet` when the mnemonic
is missing. -/

/-- A thrown JS `Error`, reduced to its message (the stack trace carries no
behaviourally relevant information). -/
structure JsError where
  message : String
deriving DecidableEq, Repr

/-- The configuration error `loadWallet` throws when `MNEMONIC` is unset
(the specification's `ConfigurationError`). -/
def configurationError : JsError :=
  ⟨"MNEMONIC not found in environment variables. Please set it in .env file"⟩

/-- An SDK wallet object; its contents are opaque to this repository. -/
structure Wallet where
  seed : String
deriving DecidableEq, Repr

/-- The first account of a wallet, as returned by `getFirstAccount`; only
its address is consumed by the scripts. -/
structure Account where
  address : String
deriving DecidableEq, Repr

/-- `createWalletFromMnemonic` from `utils/helpers.js`: hand the mnemonic
and the configured address prefix to the SDK's
`DirectSecp256k1HdWallet.fromMnemonic` (the oracle argument). -/
def createWalletFromMnemonic (fromMnemonic : String → String → Except JsError Wallet)
    (mnemonic : String) : Except JsError Wallet :=
  fromMnemonic mnemonic XION_CONFIG.addressPrefix

/-- `loadWallet` from `utils/helpers.js`: read `MNEMONIC` from the
environment, throw the configuration error when it is unset or empty
(JS `!mnemonic`), otherwise derive the wallet. -/
def loadWallet (env : Env) (fromMnemonic : String → String → Except JsError Wallet) :
    Except JsError Wallet :=
  match env "MNEMONIC" with
  | none => .error configurationError
  | some m => if m = "" then .error configurationError else createWalletFromMnemonic fromMnemonic m

/-! ## utils/helpers.js: the transaction poller -/

/-- Result of the polling loop: either the receipt together with how many
lookup calls were made, or the not-indexed failure carrying the hash and
the attempt count (the JS code throws
`Error("Transaction " + txHash + " not found after " + maxAttempts + " attempts")`). -/
inductive PollResult (α : Type) where
  | found (tx : α) (callsMade : Nat)
  | notIndexed (txHash : String) (attempts : Nat)
deriving DecidableEq, Repr

/-- The message of the not-indexed error thrown by `waitForTransaction`. -/
def transactionNotIndexedMessage (txHash : String) (maxAttempts : Nat) : String :=
  "Transaction " ++ txHash ++ " not found after " ++ toString maxAttempts ++ " attempts"

/-- Default `maxAttempts` of `waitForTransaction` (source line 168). -/
def waitForTransactionDefaultMaxAttempts : Nat := 20

/-- Default `delayMs` of `waitForTransaction` (source line 169). -/
def waitForTransactionDefaultDelayMs : Nat := 1000

/-- The loop of `waitForTransaction`, from loop counter `i`.  `getTx k` is
the receipt returned by the `k`-th `getTransaction` lookup (0-based);
`delayMs` only affects real time (the sleep between attempts), never the
result, and is carried for fidelity to the signature. -/
def waitForTransactionFrom {α : Type} (getTx : Nat → Option α) (txHash : String)
    (maxAttempts delayMs i : Nat) : PollResult α :=
  if h : i < maxAttempts then
    match getTx i with
    | some tx => .found tx (i + 1)
    | none => waitForTransactionFrom getTx txHash maxAttempts delayMs (i + 1)
  else
    .notIndexed txHash maxAttempts
termination_by maxAttempts - i
decreasing_by omega

/-- `waitForTransaction` from `utils/helpers.js`: poll the lookup up to
`maxAttempts` times, returning the first non-empty receipt, and fail with
the not-indexed error after `maxAttempts` empty lookups. -/
def waitForTransaction {α : Type} (getTx : Nat → Option α) (txHash : String)
    (maxAttempts delayMs : Nat) : PollResult α :=
  waitForTransactionFrom getTx txHash maxAttempts delayMs 0

/-! ## Chain data shapes consumed by the scripts -/

/-- A transaction receipt, with the fields `printTxResult` reads. -/
structure TxEvent where
  type : String
  attributes : List (String × String)
deriving DecidableEq, Repr

/-- One entry of a receipt's `logs` array. -/
structure TxLog where
  events : List TxEvent
deriving DecidableEq, Repr

/-- An execution receipt (`result` of `client.execute` / broadcast). -/
structure TxResult where
  transactionHash : String
  gasUsed : Nat
  gasWanted : Nat
  height : Nat
  logs : List TxLog
deriving DecidableEq, Repr

/-- The CW721 instantiate message built by `deploy-contract.js`. -/
structure InstantiateMsg where
  name : String
  symbol : String
  minter : String
deriving DecidableEq, Repr

/-- Result of `client.instantiate`: the receipt plus the assigned address. -/
structure InstantiateResult where
  contractAddress : String
  tx : TxResult
deriving DecidableEq, Repr

/-- The metadata extension object built by `mint-token.js`.  The parsed
`TOKEN_ATTRIBUTES` JSON value is opaque to the script (it is only stored
and echoed), and is modelled by its accepted source text. -/
structure MintExtension where
  name : Option String
  description : Option String
  image : Option String
  attributes : Option String
  animation_url : Option String
  external_url : Option String
  background_color : Option String
deriving DecidableEq, Repr

/-- The `mint` execute message built by `mint-token.js`. -/
structure MintMsg where
  token_id : String
  owner : String
  token_uri : String
  extension : MintExtension
deriving DecidableEq, Repr

/-- Response to the `owner_of` contract query. -/
structure ApprovalInfo where
  spender : String
  expires : String
deriving DecidableEq, Repr

/-- Response to `owner_of`. -/
structure OwnerOfRes where
  owner : String
  approvals : List ApprovalInfo
deriving DecidableEq, Repr

/-- The extension part of an `nft_info` response; `other` carries the
enumerable fields besides name/description/image that the verify script
prints generically (values modelled by their printed form). -/
structure NftExtensionRes where
  name : Option String
  description : Option String
  image : Option String
  other : List (String × String)
deriving DecidableEq, Repr

/-- Response to `nft_info`. -/
structure NftInfoRes where
  token_uri : Option String
  extension : Option NftExtensionRes
deriving DecidableEq, Repr

/-- Response to the `tokens` query. -/
structure TokensRes where
  tokens : List String
deriving DecidableEq, Repr

/-! ## Script embeddings

A script run is a list of `Effect`s: console lines and SDK/chain calls, in
program order.  SDK results come from an `SdkWorld` oracle; queries hand the
world back unchanged (an RPC read), and the embeddings thread it so that a
script that mutated local state could be told apart from one that does not. -/

/-- One observable step of a script. -/
inductive Effect where
  | log (line : String)
  | logError (line : String)
  | callLoadWallet
  | callConnectSigning
  | callConnectQuery
  | callGetBalance (address denom : String)
  | callExecuteContract (sender contract : String) (msg : MintMsg) (memo : String)
  | callInstantiateContract (sender : String) (codeId : Nat) (msg : InstantiateMsg)
      (label : String) (admin : Option String)
  | callQueryOwnerOf (contract tokenId : String)
  | callQueryNftInfo (contract tokenId : String)
  | callQueryTokens (contract owner : String) (limit : Nat)
  | disconnect
deriving DecidableEq, Repr

/-- Whether a step leaves the process: a wallet/SDK/chain interaction, as
opposed to console output. -/
def Effect.isExternalCall : Effect → Bool
  | .log _ => false
  | .logError _ => false
  | _ => true

/-- How a script run ends: a normal return of the `async` function, or
`process.exit(code)` (reached through `handleError`). -/
inductive Outcome where
  | returned
  | exited (code : Nat)
deriving DecidableEq, Repr

/-- Trace and outcome of one script invocation. -/
structure ScriptResult where
  trace : List Effect
  outcome : Outcome
deriving DecidableEq, Repr

/-- Responses of the SDK and the chain for one script invocation.  Each
field models one external call; `Except.error` models a throw.  Queries are
reads: the world is handed back unchanged by the call wrappers below. -/
structure SdkWorld where
  fromMnemonic : String → String → Except JsError Wallet
  firstAccount : Wallet → Account
  connectSigning : Wallet → Except JsError Unit
  connectQuery : Except JsError Unit
  getBalance : String → String → Except JsError Coin
  execute : String → String → MintMsg → String → Except JsError TxResult
  instantiate : String → Nat → InstantiateMsg → String → String → Except JsError InstantiateResult
  queryOwnerOf : String → String → Except JsError OwnerOfRes
  queryNftInfo : String → String → Except JsError NftInfoRes
  queryTokens : String → String → Nat → Except JsError TokensRes
  parseJsonAttrs : String → Option String

/-- `owner_of` through `queryContract`: an RPC read, world unchanged. -/
def queryOwnerOfCall (w : SdkWorld) (contract tokenId : String) :
    (Except JsError OwnerOfRes) × SdkWorld :=
  (w.queryOwnerOf contract tokenId, w)

/-- `nft_info` through `queryContract`: an RPC read, world unchanged. -/
def queryNftInfoCall (w : SdkWorld) (contract tokenId : String) :
    (Except JsError NftInfoRes) × SdkWorld :=
  (w.queryNftInfo contract tokenId, w)

/-- `tokens` through `queryContract`: an RPC read, world unchanged. -/
def queryTokensCall (w : SdkWorld) (contract owner : String) (limit : Nat) :
    (Except JsError TokensRes) × SdkWorld :=
  (w.queryTokens contract owner limit, w)

/-- `handleError` from `utils/helpers.js`: print the error and leave via
`process.exit(1)` (the optional stack-trace print carries no further
behavioural content). -/
def handleErrorTrace (e : JsError) : List Effect :=
  [.logError "\nError occurred:", .logError e.message]

/-- The `"=".repeat(80)` separator the scripts print. -/
def sep80 : String := String.mk (List.replicate 80 '=')

/-- `printTxResult` from `utils/helpers.js`. -/
def printTxResult (r : TxResult) : List Effect :=
  [.log "\nTransaction successful!",
   .log ("Transaction Hash: " ++ r.transactionHash),
   .log ("Gas Used: " ++ toString r.gasUsed),
   .log ("Gas Wanted: " ++ toString r.gasWanted),
   .log ("Height: " ++ toString r.height)] ++
  (if r.logs.length > 0 then
    .log "\nEvents:" ::
      r.logs.flatMap (fun lg =>
        lg.events.flatMap (fun ev =>
          .log ("  " ++ ev.type ++ ":") ::
            ev.attributes.map (fun a => .log ("    " ++ a.1 ++ ": " ++ a.2))))
  else [])

/-- `TOKEN_ID` in `mint-token.js` (line 21): env first, `argv[2]` second,
literal `"1"` default. -/
def mintTokenIdParam (env : Env) (argv : Argv) : String :=
  jsOrElse (jsOr (env "TOKEN_ID") (argv 2)) "1"

/-- `OWNER_ADDRESS` in `mint-token.js` (line 22): env first, `argv[3]`
second, no default (the minter is substituted later). -/
def mintOwnerAddressParam (env : Env) (argv : Argv) : Option String :=
  jsOr (env "OWNER_ADDRESS") (argv 3)

/-- `TOKEN_URI` in `mint-token.js` (line 23). -/
def mintTokenUriParam (env : Env) (argv : Argv) : String :=
  jsOrElse (jsOr (env "TOKEN_URI") (argv 4)) "ipfs://QmExample..."

/-- `RECIPIENT` in `transfer-gas.js` (line 20). -/
def transferGasRecipientParam (env : Env) (argv : Argv) : Option String :=
  jsOr (env "RECIPIENT") (argv 2)

/-- `AMOUNT` in `transfer-gas.js` (line 21). -/
def transferGasAmountParam (env : Env) (argv : Argv) : Option String :=
  jsOr (env "AMOUNT") (argv 3)

/-- `TX_HASH` in `monitor-transaction.js` (line 18). -/
def monitorTxHashParam (env : Env) (argv : Argv) : Option String :=
  jsOr (env "TX_HASH") (argv 2)

/-- `WAIT_FOR_TX` in `monitor-transaction.js` (line 19):
`process.env.WAIT === "true" || process.argv[3] === "--wait"`. -/
def monitorWaitFlag (env : Env) (argv : Argv) : Bool :=
  (env "WAIT" == some "true") || (argv 3 == some "--wait")

/-- `TOKEN_ID` in `verify-ownership.js` (line 17). -/
def verifyTokenIdParam (env : Env) (argv : Argv) : Option String :=
  jsOr (env "TOKEN_ID") (argv 2)

/-- `EXPECTED_OWNER` in `verify-ownership.js` (line 18). -/
def verifyExpectedOwnerParam (env : Env) (argv : Argv) : Option String :=
  jsOr (env "EXPECTED_OWNER") (argv 3)

/-- `TOKEN_ID` in `transfer-nft.js` (line 20). -/
def transferNftTokenIdParam (env : Env) (argv : Argv) : Option String :=
  jsOr (env "TOKEN_ID") (argv 2)

/-- `RECIPIENT` in `transfer-nft.js` (line 21). -/
def transferNftRecipientParam (env : Env) (argv : Argv) : Option String :=
  jsOr (env "RECIPIENT") (argv 3)

/-- `TRANSACTION_TYPE` in `check-gas-fee.js` (line 22): env `TX_TYPE`
first, `argv[2]` second, literal `"mint"` default. -/
def checkGasTxTypeParam (env : Env) (argv : Argv) : String :=
  jsOrElse (jsOr (env "TX_TYPE") (argv 2)) "mint"

/-- `TX_TYPE` in `sign-transaction.js` (line 21). -/
def signTxTypeParam (env : Env) (argv : Argv) : String :=
  jsOrElse (jsOr (env "TX_TYPE") (argv 2)) "send-tokens"

/-- `OUTPUT_FILE` in `sign-transaction.js` (line 22). -/
def signTxOutputFileParam (env : Env) (argv : Argv) : String :=
  jsOrElse (jsOr (env "OUTPUT_FILE") (argv 3)) "signed-tx.json"

/-- `MESSAGE` in `sign-message.js` (line 20):
`process.env.MESSAGE || process.argv.slice(2).join(" ")`.  The positional
tail `process.argv.slice(2)` is passed as the list of its entries; joining
an empty tail gives `""`, exactly as in JS. -/
def signMessageParam (env : Env) (argvTail : List String) : String :=
  jsOrElse (env "MESSAGE") (String.intercalate " " argvTail)

/-- An `if (x) extension.field = x` optional assignment: keep the value only
when truthy. -/
def envTruthyOpt (v : Option String) : Option String :=
  if jsTruthy v then v else none

/-- The extension object and the JSON warning of `mint-token.js`
(lines 59–98), for the on-chain storage mode. -/
def mintOnchainExtension (env : Env) (parseJsonAttrs : String → Option String)
    (tokenName tokenDescription tokenImage : String) :
    MintExtension × List Effect :=
  let attrs : Option String × List Effect :=
    match env "TOKEN_ATTRIBUTES" with
    | none => (none, [])
    | some raw =>
      if raw = "" then (none, [])
      else
        match parseJsonAttrs raw with
        | some v => (some v, [])
        | none => (none, [.log "Warning: Could not parse TOKEN_ATTRIBUTES JSON, skipping attributes"])
  (⟨some tokenName, some tokenDescription, some tokenImage, attrs.1,
    envTruthyOpt (env "TOKEN_ANIMATION_URL"),
    envTruthyOpt (env "TOKEN_EXTERNAL_URL"),
    envTruthyOpt (env "TOKEN_BACKGROUND_COLOR")⟩, attrs.2)

/-- `mint-token.js`. -/
def mintToken (env : Env) (argv : Argv) (w : SdkWorld) : ScriptResult :=
  let CONTRACT_ADDRESS := env "CONTRACT_ADDRESS"
  let TOKEN_ID := mintTokenIdParam env argv
  let TOKEN_URI := mintTokenUriParam env argv
  let TOKEN_NAME := jsOrElse (env "TOKEN_NAME") ("NFT #" ++ TOKEN_ID)
  let TOKEN_DESCRIPTION := jsOrElse (env "TOKEN_DESCRIPTION") "An NFT from my collection"
  let TOKEN_IMAGE := jsOrElse (env "TOKEN_IMAGE") TOKEN_URI
  let METADATA_STORAGE := (jsOrElse (env "METADATA_STORAGE") "onchain").toLower
  let t0 := [Effect.log "Minting new NFT...\n"]
  if jsTruthy CONTRACT_ADDRESS = false then
    { trace := t0 ++
        [.logError "Error: CONTRACT_ADDRESS not set!",
         .log "   Please set CONTRACT_ADDRESS in your .env file",
         .log "   Or run: export CONTRACT_ADDRESS=xion1..."],
      outcome := .returned }
  else
    let contractAddress := CONTRACT_ADDRESS.getD ""
    let t1 := t0 ++ [.log "Loading wallet from environment...", .callLoadWallet]
    match loadWallet env w.fromMnemonic with
    | .error e => { trace := t1 ++ handleErrorTrace e, outcome := .exited 1 }
    | .ok wallet =>
      let account := w.firstAccount wallet
      let t2 := t1 ++
        [.log ("Wallet loaded: " ++ account.address ++ "\n"),
         .log "Connecting to XION network...", .callConnectSigning]
      match w.connectSigning wallet with
      | .error e => { trace := t2 ++ handleErrorTrace e, outcome := .exited 1 }
      | .ok _ =>
        let t3 := t2 ++ [.log ("Connected to " ++ XION_CONFIG.chainId ++ "\n")]
        let ownerAddress := jsOrElse (mintOwnerAddressParam env argv) account.address
        let extWarn : MintExtension × List Effect × String :=
          if METADATA_STORAGE = "onchain" then
            let ew := mintOnchainExtension env w.parseJsonAttrs TOKEN_NAME TOKEN_DESCRIPTION TOKEN_IMAGE
            (ew.1, ew.2, "ON-CHAIN (Full metadata stored on blockchain)")
          else
            (⟨none, none, some TOKEN_IMAGE, none, none, none, none⟩, [],
             "OFF-CHAIN (Metadata stored on IPFS: " ++ TOKEN_URI ++ ")")
        let extension := extWarn.1
        let mintMsg : MintMsg := ⟨TOKEN_ID, ownerAddress, TOKEN_URI, extension⟩
        let t4 := t3 ++ extWarn.2.1 ++
          [.log "NFT Details:",
           .log ("   Contract: " ++ contractAddress),
           .log ("   Token ID: " ++ TOKEN_ID),
           .log ("   Owner: " ++ ownerAddress),
           .log ("   Storage Mode: " ++ METADATA_STORAGE.toUpper),
           .log ("   " ++ extWarn.2.2)] ++
          (if METADATA_STORAGE = "onchain" then
            [.log ("   Name: " ++ TOKEN_NAME),
             .log ("   Description: " ++ TOKEN_DESCRIPTION),
             .log ("   Image: " ++ TOKEN_IMAGE)] ++
            (match extension.attributes with
             | some a => [.log ("   Attributes: " ++ a)]
             | none => [])
          else []) ++
          [.log ("   Token URI: " ++ TOKEN_URI),
           .log "\nMinting NFT...",
           .callExecuteContract account.address contractAddress mintMsg ("Minted NFT #" ++ TOKEN_ID)]
        match w.execute account.address contractAddress mintMsg ("Minted NFT #" ++ TOKEN_ID) with
        | .error e => { trace := t4 ++ handleErrorTrace e, outcome := .exited 1 }
        | .ok result =>
          let t5 := t4 ++
            [.log ("\n" ++ sep80),
             .log "NFT MINTED SUCCESSFULLY!",
             .log sep80,
             .log ("Token ID: " ++ TOKEN_ID),
             .log ("Owner: " ++ ownerAddress),
             .log ("Contract: " ++ contractAddress),
             .log ("Storage: " ++ METADATA_STORAGE.toUpper),
             .log ("Explorer: https://www.mintscan.io/xion-testnet/tx/" ++ result.transactionHash),
             .log sep80] ++
            printTxResult result ++
            (.log "\nMETADATA STORAGE:" ::
              (if METADATA_STORAGE = "onchain" then
                [.log "   All metadata is stored ON-CHAIN in the contract",
                 .log "   Metadata can be queried directly from the contract",
                 .log "   No external dependencies (IPFS not required)"]
              else
                [.log "   Metadata is stored OFF-CHAIN on IPFS",
                 .log ("   Token URI: " ++ TOKEN_URI),
                 .log "   Contract stores only the IPFS reference",
                 .log "   Wallets/apps will fetch metadata from IPFS"])) ++
            [.log "\nNEXT STEPS:",
             .log "   1. Use verify-ownership.js to verify the NFT owner",
             .log "   2. Use transfer-nft.js to transfer the NFT to another address",
             .log "   3. Query NFT metadata using the contract address and token ID",
             .log "",
             .disconnect]
          { trace := t5, outcome := .returned }

/-- What `verify-ownership.js` produces besides its trace: the owner and
metadata fields it read (the claim's observables), and how it ended. -/
structure VerifyResult where
  trace : List Effect
  owner : Option String
  metadata : Option NftInfoRes
  outcome : Outcome
deriving DecidableEq, Repr

/-- The top-level catch of `verify-ownership.js`: a "not found" message is
reported specially (and the function returns normally); everything else
goes to `handleError`, which exits. -/
def verifyCatch (t : List Effect) (e : JsError) : VerifyResult :=
  if stringContains e.message "not found" then
    { trace := t ++
        [.logError "\nError: Token not found!",
         .log "   The specified token ID does not exist in this contract.",
         .log "   Please check the token ID and contract address."],
      owner := none, metadata := none, outcome := .returned }
  else
    { trace := t ++ handleErrorTrace e, owner := none, metadata := none, outcome := .exited 1 }

/-- The `NFT Metadata` block printed for a successful `nft_info` query
(lines 98–121 of `verify-ownership.js`). -/
def nftInfoLines (nftInfo : NftInfoRes) : List Effect :=
  [.log "\nNFT Metadata:",
   .log ("   Token URI: " ++ jsOrElse nftInfo.token_uri "Not set")] ++
  (match nftInfo.extension with
   | none => []
   | some ext =>
     (if jsTruthy ext.name then [.log ("   Name: " ++ ext.name.getD "")] else []) ++
     (if jsTruthy ext.description then [.log ("   Description: " ++ ext.description.getD "")] else []) ++
     (if jsTruthy ext.image then [.log ("   Image: " ++ ext.image.getD "")] else []) ++
     (if ext.other.length > 0 then
       .log "   Additional metadata:" ::
         ext.other.map (fun f => .log ("     " ++ f.1 ++ ": " ++ f.2))
     else []))

/-- `verify-ownership.js`.  The world is threaded through every chain read
and handed back, so a run that mutated local state would be visible in the
returned world. -/
def verifyOwnership (env : Env) (argv : Argv) (w : SdkWorld) : VerifyResult × SdkWorld :=
  let CONTRACT_ADDRESS := env "CONTRACT_ADDRESS"
  let TOKEN_ID := verifyTokenIdParam env argv
  let EXPECTED_OWNER := verifyExpectedOwnerParam env argv
  let t0 := [Effect.log "Verifying NFT Ownership...\n"]
  if jsTruthy CONTRACT_ADDRESS = false then
    ({ trace := t0 ++
         [.logError "Error: CONTRACT_ADDRESS not set!",
          .log "   Please set CONTRACT_ADDRESS in your .env file"],
       owner := none, metadata := none, outcome := .returned }, w)
  else if jsTruthy TOKEN_ID = false then
    ({ trace := t0 ++
         [.logError "Error: TOKEN_ID not provided!",
          .log "   Usage: npm run verify-ownership <token_id> [expected_owner_address]",
          .log "   Or set TOKEN_ID in .env file"],
       owner := none, metadata := none, outcome := .returned }, w)
  else
    let contract := CONTRACT_ADDRESS.getD ""
    let tokenId := TOKEN_ID.getD ""
    let t1 := t0 ++ [.log "Connecting to XION network...", .callConnectQuery]
    match w.connectQuery with
    | .error e => (verifyCatch t1 e, w)
    | .ok _ =>
      let t2 := t1 ++
        [.log ("Connected to " ++ XION_CONFIG.chainId ++ "\n"),
         .log "Query Details:",
         .log ("   Contract: " ++ contract),
         .log ("   Token ID: " ++ tokenId),
         .log "\nQuerying NFT ownership...",
         .callQueryOwnerOf contract tokenId]
      let q1 := queryOwnerOfCall w contract tokenId
      match q1.1 with
      | .error e => (verifyCatch t2 e, q1.2)
      | .ok ownerResult =>
        let t3 := t2 ++
          [.log ("\n" ++ sep80),
           .log "OWNERSHIP VERIFICATION RESULT",
           .log sep80,
           .log ("Token ID: " ++ tokenId),
           .log ("Owner: " ++ ownerResult.owner)] ++
          (if ownerResult.approvals.length > 0 then
            .log ("Approvals: " ++ toString ownerResult.approvals.length) ::
              ownerResult.approvals.enum.map (fun p =>
                .log ("   " ++ toString (p.1 + 1) ++ ". " ++ p.2.spender ++
                  " (expires: " ++ p.2.expires ++ ")"))
          else [.log "Approvals: None"]) ++
          [.log sep80] ++
          (if jsTruthy EXPECTED_OWNER then
            [.log "\nVerification Check:",
             .log ("   Expected: " ++ EXPECTED_OWNER.getD ""),
             .log ("   Actual: " ++ ownerResult.owner)] ++
            (if ownerResult.owner = EXPECTED_OWNER.getD "" then
              [.log "   MATCH - Ownership verified!"]
            else [.log "   MISMATCH - Owner does not match expected address"])
          else []) ++
          [.log "\nFetching NFT metadata...", .callQueryNftInfo contract tokenId]
        let q2 := queryNftInfoCall q1.2 contract tokenId
        let metaPart : Option NftInfoRes × List Effect :=
          match q2.1 with
          | .error _ => (none, [.log "\nCould not fetch metadata (may not be available)"])
          | .ok nftInfo => (some nftInfo, nftInfoLines nftInfo)
        let t4 := t3 ++ metaPart.2 ++
          [.log "\nChecking owner's total NFTs...",
           .callQueryTokens contract ownerResult.owner 100]
        let q3 := queryTokensCall q2.2 contract ownerResult.owner 100
        let tokensPart : List Effect :=
          match q3.1 with
          | .error _ => [.log "\nCould not fetch owner's token list"]
          | .ok tokensResult =>
            .log ("\nTotal NFTs owned by " ++ ownerResult.owner ++ ": " ++
              toString tokensResult.tokens.length) ::
              (if tokensResult.tokens.length > 0 then
                [.log ("   Token IDs: " ++ String.intercalate ", " tokensResult.tokens)]
              else [])
        ({ trace := t4 ++ tokensPart ++ [.log "", .disconnect],
           owner := some ownerResult.owner, metadata := metaPart.1,
           outcome := .returned }, q3.2)

/-- `instantiateContract`'s `admin: admin || undefined` argument
normalisation (`utils/helpers.js` line 140). -/
def adminOrUndefined (admin : String) : Option String :=
  if admin = "" then none else some admin

/-- `deploy-contract.js`. -/
def deployContract (env : Env) (w : SdkWorld) : ScriptResult :=
  let NFT_NAME := jsOrElse (env "NFT_NAME") "My NFT Collection"
  let NFT_SYMBOL := jsOrElse (env "NFT_SYMBOL") "MNFT"
  let CONTRACT_LABEL := jsOrElse (env "CONTRACT_LABEL") "my-nft-contract"
  let t0 := [Effect.log "Deploying CW721 NFT Contract...\n",
             Effect.log "Loading wallet from environment...", Effect.callLoadWallet]
  match loadWallet env w.fromMnemonic with
  | .error e => { trace := t0 ++ handleErrorTrace e, outcome := .exited 1 }
  | .ok wallet =>
    let account := w.firstAccount wallet
    let t1 := t0 ++
      [.log ("Wallet loaded: " ++ account.address ++ "\n"),
       .log "Connecting to XION network...", .callConnectSigning]
    match w.connectSigning wallet with
    | .error e => { trace := t1 ++ handleErrorTrace e, outcome := .exited 1 }
    | .ok _ =>
      let t2 := t1 ++
        [.log ("Connected to " ++ XION_CONFIG.chainId ++ "\n"),
         .callGetBalance account.address XION_CONFIG.denom]
      match w.getBalance account.address XION_CONFIG.denom with
      | .error e => { trace := t2 ++ handleErrorTrace e, outcome := .exited 1 }
      | .ok balance =>
        let t3 := t2 ++ [.log ("Wallet balance: " ++ balance.amount ++ " " ++ balance.denom)]
        if parseIntJS balance.amount = some 0 then
          { trace := t3 ++
              [.log "\nWarning: Wallet has zero balance!",
               .log "   Please fund your wallet with testnet tokens before deploying.",
               .log ("   Discord: " ++ XION_CONFIG.faucet.discord),
               .log ("   Command: " ++ XION_CONFIG.faucet.command)],
            outcome := .returned }
        else
          let instantiateMsg : InstantiateMsg := ⟨NFT_NAME, NFT_SYMBOL, account.address⟩
          let t4 := t3 ++
            [.log "\nContract Configuration:",
             .log ("   Name: " ++ NFT_NAME),
             .log ("   Symbol: " ++ NFT_SYMBOL),
             .log ("   Minter: " ++ account.address),
             .log ("   Code ID: " ++ toString XION_CONFIG.cw721MetadataOnchainCodeId),
             .log ("   Label: " ++ CONTRACT_LABEL),
             .log "\nInstantiating contract...",
             .callInstantiateContract account.address XION_CONFIG.cw721MetadataOnchainCodeId
               instantiateMsg CONTRACT_LABEL (adminOrUndefined account.address)]
          match w.instantiate account.address XION_CONFIG.cw721MetadataOnchainCodeId
              instantiateMsg CONTRACT_LABEL account.address with
          | .error e => { trace := t4 ++ handleErrorTrace e, outcome := .exited 1 }
          | .ok result =>
            let contractAddress := result.contractAddress
            let t5 := t4 ++
              [.log ("\n" ++ sep80),
               .log "CONTRACT DEPLOYED SUCCESSFULLY!",
               .log sep80,
               .log ("Contract Address: " ++ contractAddress),
               .log ("Explorer: https://www.mintscan.io/xion-testnet/address/" ++ contractAddress),
               .log sep80] ++
              printTxResult result.tx ++
              [.log "\nNEXT STEPS:",
               .log ("   1. Add CONTRACT_ADDRESS=\"" ++ contractAddress ++ "\" to your .env file"),
               .log "   2. Use mint-token.js to mint your first NFT",
               .log "   3. Use transfer-nft.js to transfer NFTs between addresses",
               .log "",
               .disconnect]
            { trace := t5, outcome := .returned }

/-! ## Supporting lemmas for the poller -/

/-- Poll step: a found receipt at attempt `i` ends the loop with `i + 1`
calls made. -/
theorem waitForTransactionFrom_found {α : Type} (getTx : Nat → Option α) (txHash : String)
    (maxAttempts delayMs i : Nat) (tx : α) (hi : i < maxAttempts) (htx : getTx i = some tx) :
    waitForTransactionFrom getTx txHash maxAttempts delayMs i = PollResult.found tx (i + 1) := by
  rw [waitForTransactionFrom, dif_pos hi, htx]

/-- Poll step: an empty lookup at attempt `i` continues with attempt `i+1`. -/
theorem waitForTransactionFrom_step {α : Type} (getTx : Nat → Option α) (txHash : String)
    (maxAttempts delayMs i : Nat) (hi : i < maxAttempts) (hnone : getTx i = none) :
    waitForTransactionFrom getTx txHash maxAttempts delayMs i =
      waitForTransactionFrom getTx txHash maxAttempts delayMs (i + 1) := by
  rw [waitForTransactionFrom, dif_pos hi, hnone]

/-- Poll exit: once the counter reaches the bound the loop throws. -/
theorem waitForTransactionFrom_exhausted {α : Type} (getTx : Nat → Option α) (txHash : String)
    (maxAttempts delayMs i : Nat) (hi : ¬ i < maxAttempts) :
    waitForTransactionFrom getTx txHash maxAttempts delayMs i =
      PollResult.notIndexed txHash maxAttempts := by
  rw [waitForTransactionFrom, dif_neg hi]

/-- A run of empty lookups advances the loop counter without changing the
result. -/
theorem waitForTransactionFrom_skip {α : Type} (getTx : Nat → Option α) (txHash : String)
    (maxAttempts delayMs : Nat) :
    ∀ d i, i + d ≤ maxAttempts → (∀ x, i ≤ x → x < i + d → getTx x = none) →
      waitForTransactionFrom getTx txHash maxAttempts delayMs i =
        waitForTransactionFrom getTx txHash maxAttempts delayMs (i + d) := by
  intro d
  induction d with
  | zero => intro i _ _; rfl
  | succ d ih =>
    intro i hle hnone
    have hi : i < maxAttempts := by omega
    rw [waitForTransactionFrom_step getTx txHash maxAttempts delayMs i hi
      (hnone i le_rfl (by omega))]
    have heq : i + (d + 1) = (i + 1) + d := by omega
    rw [heq]
    exact ih (i + 1) (by omega) (fun x hx1 hx2 => hnone x (by omega) (by omega))

/-- Claim C1: for every `maxAttempts = N`, delay, hash and lookup, if the
lookup is empty on the first `k−1` calls and returns a receipt on the `k`-th
(`k ≤ N`), `waitForTransaction` returns that receipt having made exactly `k`
lookup calls; if all `N` lookups are empty it makes exactly `N` calls and
fails with the not-indexed error carrying the hash and the attempt count;
and the overridable defaults are 20 attempts and 1000 ms. -/
theorem waitForTransaction_poll_spec {α : Type} (getTx : Nat → Option α) (txHash : String)
    (N delayMs : Nat) :
    (∀ k tx, 1 ≤ k → k ≤ N → (∀ i, i < k - 1 → getTx i = none) → getTx (k - 1) = some tx →
      waitForTransaction getTx txHash N delayMs = PollResult.found tx k)
    ∧ ((∀ i, i < N → getTx i = none) →
      waitForTransaction getTx txHash N delayMs = PollResult.notIndexed txHash N)
    ∧ waitForTransactionDefaultMaxAttempts = 20
    ∧ waitForTransactionDefaultDelayMs = 1000 := by
  refine ⟨?_, ?_, rfl, rfl⟩
  · intro k tx hk hkN hnone hfound
    unfold waitForTransaction
    rw [waitForTransactionFrom_skip getTx txHash N delayMs (k - 1) 0 (by omega)
      (fun x _ hx2 => hnone x (by omega))]
    rw [Nat.zero_add]
    rw [waitForTransactionFrom_found getTx txHash N delayMs (k - 1) tx (by omega) hfound]
    rw [Nat.sub_add_cancel hk]
  · intro hall
    unfold waitForTransaction
    rw [waitForTransactionFrom_skip getTx txHash N delayMs N 0 (by omega)
      (fun x _ hx2 => hall x (by omega))]
    rw [Nat.zero_add]
    exact waitForTransactionFrom_exhausted getTx txHash N delayMs N (lt_irrefl N)

/-- Witness for C1: a lookup that answers on the third call makes exactly
three calls; a lookup that never answers for four attempts exhausts them. -/
theorem waitForTransaction_poll_spec_witness :
    waitForTransaction (fun i => if i = 2 then some 42 else none) "ABC123" 5 1000 =
      PollResult.found 42 3
    ∧ waitForTransaction (fun _ => (none : Option Nat)) "ABC123" 4 1000 =
      PollResult.notIndexed "ABC123" 4 := by
  constructor
  · exact (waitForTransaction_poll_spec (fun i => if i = 2 then some 42 else none)
      "ABC123" 5 1000).1 3 42 (by norm_num) (by norm_num)
      (fun i hi => by interval_cases i <;> rfl) rfl
  · exact (waitForTransaction_poll_spec (fun _ => (none : Option Nat))
      "ABC123" 4 1000).2.1 (fun i _ => rfl)

/-! ## Amount conversion: truncation direction (C2, C3) -/

/-- The numeral `"-1.0000005"` as recognised by the `parseFloat` model. -/
theorem parseFloatJS_neg_example :
    parseFloatJS "-1.0000005" = some (-(10000005 : ℚ) / 10 ^ 7) := by
  have h1 : parseDecimalJS "-1.0000005" = some ⟨true, [1], [0, 0, 0, 0, 0, 0, 5], 0⟩ := by
    decide
  rw [parseFloatJS, h1, Option.map_some']
  norm_num [JSDecimal.toRat, digitsVal]

/-- Counterexample to claim C2: on the negative display amount
`"-1.0000005"` the code returns `"-1000001"` (`Math.floor` rounds toward
negative infinity), while truncation toward zero of
`-1.0000005 · 10⁶ = -1000000.5` is `-1000000`; so the output is not the
truncation toward zero the claim states for negative amounts. -/
theorem parseXionAmount_negative_counterexample :
    parseXionAmount (JSVal.str "-1.0000005") = "-1000001"
    ∧ truncTowardZero ((-(10000005 : ℚ) / 10 ^ 7) * 10 ^ 6) = -1000000
    ∧ parseXionAmount (JSVal.str "-1.0000005")
        ≠ toString (truncTowardZero ((-(10000005 : ℚ) / 10 ^ 7) * 10 ^ 6)) := by
  have hfloor : (⌊(-(10000005 : ℚ) / 10 ^ 7) * 10 ^ XION_CONFIG.decimals⌋ : ℤ) = -1000001 := by
    show (⌊(-(10000005 : ℚ) / 10 ^ 7) * 10 ^ 6⌋ : ℤ) = -1000001
    norm_num
  have hparse : parseXionAmount (JSVal.str "-1.0000005") = "-1000001" := by
    simp only [parseXionAmount, parseFloatJS_neg_example, hfloor]
    decide
  have htrunc : truncTowardZero ((-(10000005 : ℚ) / 10 ^ 7) * 10 ^ 6) = -1000000 := by
    rw [truncTowardZero, if_pos (by norm_num)]
    rw [show (-(-(10000005 : ℚ) / 10 ^ 7 * 10 ^ 6)) = 10000005 / 10 by ring]
    norm_num [Int.floor_eq_iff]
  refine ⟨hparse, htrunc, ?_⟩
  rw [hparse, htrunc]
  decide

/-- Claim C2 (amended): `parseXionAmount` returns the base-unit string
`Math.floor(a · 10⁶).toString()` — the floor (rounding toward negative
infinity), which agrees with truncation toward zero exactly on non-negative
amounts; numeric strings are first read by `parseFloat`. -/
theorem parseXionAmount_floor_semantics (q : ℚ) :
    parseXionAmount (JSVal.num q) = toString (⌊q * 10 ^ 6⌋ : ℤ)
    ∧ (0 ≤ q → (⌊q * 10 ^ 6⌋ : ℤ) = truncTowardZero (q * 10 ^ 6))
    ∧ (∀ s, parseFloatJS s = some q →
        parseXionAmount (JSVal.str s) = toString (⌊q * 10 ^ 6⌋ : ℤ)) := by
  refine ⟨rfl, ?_, ?_⟩
  · intro hq
    rw [truncTowardZero,
      if_neg (not_lt.mpr (mul_nonneg hq (by norm_num : (0 : ℚ) ≤ 10 ^ 6)))]
  · intro s hs
    simp only [parseXionAmount, hs]
    rfl

/-- Witness for the amended C2 at the concrete amount 1.5 (number and
string forms), including the truncation agreement on this non-negative
value. -/
theorem parseXionAmount_floor_semantics_witness :
    parseXionAmount (JSVal.num (3 / 2 : ℚ)) = "1500000"
    ∧ parseXionAmount (JSVal.str "1.5") = "1500000"
    ∧ (⌊(3 / 2 : ℚ) * 10 ^ 6⌋ : ℤ) = truncTowardZero ((3 / 2 : ℚ) * 10 ^ 6) := by
  have h := parseXionAmount_floor_semantics (3 / 2 : ℚ)
  have hfloor : (⌊(3 / 2 : ℚ) * 10 ^ 6⌋ : ℤ) = 1500000 := by norm_num
  have hpf : parseFloatJS "1.5" = some (3 / 2 : ℚ) := by
    have h1 : parseDecimalJS "1.5" = some ⟨false, [1], [5], 0⟩ := by decide
    rw [parseFloatJS, h1, Option.map_some']
    norm_num [JSDecimal.toRat, digitsVal]
  refine ⟨?_, ?_, h.2.1 (by norm_num)⟩
  · rw [h.1, hfloor]; decide
  · rw [h.2.2 "1.5" hpf, hfloor]; decide

/-- Claim C3: `parseXionAmount` on the display amount `"1.9999995"` with
six decimals yields the truncated `"1999999"`, not the rounded
`"2000000"`. -/
theorem parseXionAmount_truncates_not_rounds :
    parseXionAmount (JSVal.str "1.9999995") = "1999999"
    ∧ parseXionAmount (JSVal.str "1.9999995") ≠ "2000000" := by
  have hpf : parseFloatJS "1.9999995" = some ((19999995 : ℚ) / 10 ^ 7) := by
    have h1 : parseDecimalJS "1.9999995" = some ⟨false, [1], [9, 9, 9, 9, 9, 9, 5], 0⟩ := by
      decide
    rw [parseFloatJS, h1, Option.map_some']
    norm_num [JSDecimal.toRat, digitsVal]
  have hfloor : (⌊((19999995 : ℚ) / 10 ^ 7) * 10 ^ XION_CONFIG.decimals⌋ : ℤ) = 1999999 := by
    show (⌊((19999995 : ℚ) / 10 ^ 7) * 10 ^ 6⌋ : ℤ) = 1999999
    norm_num
  have : parseXionAmount (JSVal.str "1.9999995") = "1999999" := by
    simp only [parseXionAmount, hpf, hfloor]
    decide
  exact ⟨this, by rw [this]; decide⟩

/-! ## Supporting lemmas for decimal rendering and parsing (C4) -/

/-- The fueled digit extractor agrees with `Nat.digits 10` when the fuel
covers the input. -/
theorem natDigitsRevAux_eq (fuel : Nat) :
    ∀ n, n ≤ fuel → natDigitsRevAux fuel n = Nat.digits 10 n := by
  induction fuel with
  | zero =>
    intro n hn
    interval_cases n
    simp [natDigitsRevAux]
  | succ f ih =>
    intro n hn
    cases n with
    | zero => simp [natDigitsRevAux]
    | succ m =>
      rw [natDigitsRevAux]
      have hdivle : (m + 1) / 10 ≤ f := by
        have : (m + 1) / 10 < m + 1 := Nat.div_lt_self (Nat.succ_pos m) (by norm_num)
        omega
      rw [ih ((m + 1) / 10) hdivle]
      rw [Nat.digits_def' (by norm_num : 1 < 10) (Nat.succ_pos m)]

/-- `natDigitsRev` is `Nat.digits 10`. -/
theorem natDigitsRev_eq_digits (n : Nat) : natDigitsRev n = Nat.digits 10 n :=
  natDigitsRevAux_eq n n le_rfl

/-- Reading back the character of a decimal digit. -/
theorem charToDigit_digitChar {d : Nat} (h : d < 10) :
    charToDigit (digitChar d) = some d := by
  interval_cases d <;> decide

/-- Digit characters are not whitespace. -/
theorem digitChar_not_space {d : Nat} (h : d < 10) :
    ¬(digitChar d = ' ' ∨ digitChar d = '\t' ∨ digitChar d = '\n' ∨ digitChar d = '\r') := by
  interval_cases d <;> decide

/-- Digit characters are not sign characters. -/
theorem digitChar_not_sign {d : Nat} (h : d < 10) :
    digitChar d ≠ '-' ∧ digitChar d ≠ '+' := by
  interval_cases d <;> decide

/-- `takeDigits` consumes exactly a rendered digit block when the remainder
does not begin with a digit. -/
theorem takeDigits_map_append (ds : List Nat) (h : ∀ d ∈ ds, d < 10) (rest : List Char)
    (hrest : ∀ c, rest.head? = some c → charToDigit c = none) :
    takeDigits (ds.map digitChar ++ rest) = (ds, rest) := by
  induction ds with
  | nil =>
    cases rest with
    | nil => rfl
    | cons c cs =>
      simp only [List.map_nil, List.nil_append, takeDigits, hrest c rfl]
  | cons d ds ih =>
    simp only [List.map_cons, List.cons_append, takeDigits, List.append_eq,
      charToDigit_digitChar (h d (List.mem_cons_self d ds))]
    rw [ih (fun x hx => h x (List.mem_cons_of_mem _ hx))]

/-- The big-endian digit fold against `Nat.ofDigits`. -/
theorem digitsVal_foldl (L : List Nat) :
    ∀ a, List.foldl (fun a d => 10 * a + d) a L.reverse
      = a * 10 ^ L.length + Nat.ofDigits 10 L := by
  induction L with
  | nil => intro a; simp [Nat.ofDigits_nil]
  | cons x L ih =>
    intro a
    rw [List.reverse_cons, List.foldl_append, ih a, List.foldl_cons, List.foldl_nil,
      Nat.ofDigits_cons, List.length_cons]
    ring

/-- Reading back the rendered digits of `n` gives `n`. -/
theorem digitsVal_natDigitsRev_reverse (n : Nat) :
    digitsVal ((natDigitsRev n).reverse) = n := by
  rw [digitsVal, natDigitsRev_eq_digits, digitsVal_foldl, Nat.ofDigits_digits]
  ring

/-- Reading back `natDigitsBE n` gives `n`. -/
theorem digitsVal_natDigitsBE (n : Nat) : digitsVal (natDigitsBE n) = n := by
  rw [natDigitsBE]
  split
  · simp_all [digitsVal]
  · exact digitsVal_natDigitsRev_reverse n

/-- All rendered digits are decimal digits. -/
theorem natDigitsBE_lt (n : Nat) : ∀ d ∈ natDigitsBE n, d < 10 := by
  rw [natDigitsBE]
  split
  · simp
  · intro d hd
    rw [natDigitsRev_eq_digits] at hd
    exact Nat.digits_lt_base (by norm_num) (List.mem_reverse.mp hd)

/-- The rendering of a natural number is never empty. -/
theorem natDigitsBE_ne_nil (n : Nat) : natDigitsBE n ≠ [] := by
  rw [natDigitsBE]
  split
  · simp
  · rw [natDigitsRev_eq_digits]
    simp only [ne_eq, List.reverse_eq_nil_iff]
    exact Nat.digits_ne_nil_iff_ne_zero.mpr (by assumption)

/-- Leading zeros contribute nothing to the digit fold. -/
theorem foldl_replicate_zero (k : Nat) :
    List.foldl (fun a d => 10 * a + d) 0 (List.replicate k 0) = 0 := by
  induction k with
  | zero => rfl
  | succ k ih => simpa [List.replicate_succ] using ih

/-- Reading back the zero-padded fractional digits gives the value. -/
theorem digitsVal_padDigits6 (m : Nat) : digitsVal (padDigits6 m) = m := by
  rw [padDigits6, digitsVal, List.foldl_append, foldl_replicate_zero]
  exact digitsVal_natDigitsRev_reverse m

/-- All padded fractional digits are decimal digits. -/
theorem padDigits6_lt (m : Nat) : ∀ d ∈ padDigits6 m, d < 10 := by
  intro d hd
  rw [padDigits6] at hd
  rcases List.mem_append.mp hd with h | h
  · have := List.eq_of_mem_replicate h
    omega
  · rw [natDigitsRev_eq_digits] at h
    exact Nat.digits_lt_base (by norm_num) (List.mem_reverse.mp h)

/-- For `m < 10⁶` the padded fractional block has exactly six digits. -/
theorem padDigits6_length {m : Nat} (hm : m < 10 ^ 6) : (padDigits6 m).length = 6 := by
  rw [padDigits6, List.length_append, List.length_replicate, List.length_reverse,
    natDigitsRev_eq_digits]
  rcases Nat.eq_zero_or_pos m with h0 | hpos
  · simp [h0]
  · have hlen : (Nat.digits 10 m).length = Nat.log 10 m + 1 :=
      Nat.digits_len 10 m (by norm_num) (by omega)
    have hlog : Nat.log 10 m < 6 := Nat.log_lt_of_lt_pow (by omega) hm
    omega

/-- `toFixed(6)` on the display value of a whole base-unit amount prints the
integer and fractional digit blocks. -/
theorem toFixed6_natCast (b : Nat) :
    toFixed6 ((b : ℚ) / 10 ^ 6) =
      String.mk (natToChars (b / 1000000) ++ '.' :: pad6Chars (b % 1000000)) := by
  have hmul : ((b : ℚ) / 10 ^ 6) * 1000000 = (b : ℚ) := by
    rw [show ((10 : ℚ) ^ 6) = 1000000 by norm_num]
    exact div_mul_cancel₀ _ (by norm_num)
  simp only [toFixed6, hmul, round_natCast]
  rw [if_neg (not_lt.mpr (Int.natCast_nonneg b)), Int.natAbs_ofNat]

/-- The `parseFloat` numeral phase recovers the rendered digit blocks. -/
theorem parseDecimalJS_render (hi lo : Nat) :
    parseDecimalJS (String.mk (natToChars hi ++ '.' :: pad6Chars lo)) =
      some ⟨false, natDigitsBE hi, padDigits6 lo, 0⟩ := by
  obtain ⟨d0, ds0, hds⟩ : ∃ d0 ds0, natDigitsBE hi = d0 :: ds0 := by
    rcases hne : natDigitsBE hi with _ | ⟨a, l⟩
    · exact absurd hne (natDigitsBE_ne_nil hi)
    · exact ⟨a, l, rfl⟩
  have hd0 : d0 < 10 := natDigitsBE_lt hi d0 (by rw [hds]; exact List.mem_cons_self _ _)
  have hlt : ∀ d ∈ d0 :: ds0, d < 10 := by rw [← hds]; exact natDigitsBE_lt hi
  rw [natToChars, hds, List.map_cons, List.cons_append]
  have hskip : skipSpaces (digitChar d0 :: (ds0.map digitChar ++ '.' :: pad6Chars lo))
      = digitChar d0 :: (ds0.map digitChar ++ '.' :: pad6Chars lo) := by
    rw [skipSpaces, if_neg (digitChar_not_space hd0)]
  have hsign : takeSign (digitChar d0 :: (ds0.map digitChar ++ '.' :: pad6Chars lo))
      = (false, digitChar d0 :: (ds0.map digitChar ++ '.' :: pad6Chars lo)) := by
    rw [takeSign, if_neg (digitChar_not_sign hd0).1, if_neg (digitChar_not_sign hd0).2]
  have hdigits : takeDigits (digitChar d0 :: (ds0.map digitChar ++ '.' :: pad6Chars lo))
      = (d0 :: ds0, '.' :: pad6Chars lo) := by
    have h := takeDigits_map_append (d0 :: ds0) hlt ('.' :: pad6Chars lo)
      (fun c hc => by
        simp only [List.head?, Option.some.injEq] at hc
        rw [← hc]
        decide)
    rw [List.map_cons, List.cons_append] at h
    exact h
  have hfrac : takeDigits (pad6Chars lo) = (padDigits6 lo, []) := by
    have h := takeDigits_map_append (padDigits6 lo) (padDigits6_lt lo) []
      (fun c hc => by simp at hc)
    rw [List.append_nil] at h
    rw [pad6Chars]
    exact h
  simp only [parseDecimalJS, hskip, hsign, hdigits, hfrac, takeExponent]
  simp [hds]

/-- Value of a recognised rendered numeral. -/
theorem JSDecimal_render_toRat (hi lo : Nat) (hlo : lo < 10 ^ 6) :
    JSDecimal.toRat ⟨false, natDigitsBE hi, padDigits6 lo, 0⟩ = (hi : ℚ) + (lo : ℚ) / 10 ^ 6 := by
  rw [JSDecimal.toRat]
  simp only [digitsVal_natDigitsBE, digitsVal_padDigits6, padDigits6_length hlo]
  simp

/-- Claim C4: for every non-negative integer base-unit amount `b`,
`parseXionAmount (formatXionAmount b)` returns `b` as a base-unit string
(in particular on every exact multiple of the display precision); and
concretely `formatXionAmount 1000000 = "1.000000"` and
`parseXionAmount "1.000000" = "1000000"`. -/
theorem format_parse_roundtrip (b : Nat) :
    parseXionAmount (JSVal.str (formatXionAmount (JSVal.num (b : ℚ)))) = toString (b : ℤ)
    ∧ formatXionAmount (JSVal.num ((1000000 : ℕ) : ℚ)) = "1.000000"
    ∧ parseXionAmount (JSVal.str "1.000000") = "1000000" := by
  refine ⟨?_, ?_, ?_⟩
  · have hfmt : formatXionAmount (JSVal.num (b : ℚ)) =
        String.mk (natToChars (b / 1000000) ++ '.' :: pad6Chars (b % 1000000)) :=
      toFixed6_natCast b
    have hlo : b % 1000000 < 10 ^ 6 := by
      have := Nat.mod_lt b (show 0 < 1000000 by norm_num)
      omega
    have hpf : parseFloatJS
          (String.mk (natToChars (b / 1000000) ++ '.' :: pad6Chars (b % 1000000)))
        = some (((b / 1000000 : ℕ) : ℚ) + ((b % 1000000 : ℕ) : ℚ) / 10 ^ 6) := by
      rw [parseFloatJS, parseDecimalJS_render, Option.map_some', JSDecimal_render_toRat _ _ hlo]
    have hb : ((b : ℚ)) = ((b / 1000000 : ℕ) : ℚ) * 1000000 + ((b % 1000000 : ℕ) : ℚ) := by
      rw [show ((b / 1000000 : ℕ) : ℚ) * 1000000 + ((b % 1000000 : ℕ) : ℚ)
          = (((b / 1000000) * 1000000 + b % 1000000 : ℕ) : ℚ) by push_cast; ring]
      norm_cast
      omega
    have hval : ((((b / 1000000 : ℕ) : ℚ) + ((b % 1000000 : ℕ) : ℚ) / 10 ^ 6) *
        10 ^ XION_CONFIG.decimals) = ((b : ℕ) : ℚ) := by
      show ((((b / 1000000 : ℕ) : ℚ) + ((b % 1000000 : ℕ) : ℚ) / 10 ^ 6) * 10 ^ 6)
        = ((b : ℕ) : ℚ)
      rw [hb, show ((10 : ℚ) ^ 6) = 1000000 by norm_num]
      field_simp
    have hfloor : (⌊(((b / 1000000 : ℕ) : ℚ) + ((b % 1000000 : ℕ) : ℚ) / 10 ^ 6) *
        10 ^ XION_CONFIG.decimals⌋ : ℤ) = (b : ℤ) := by
      rw [hval, Int.floor_natCast]
    rw [hfmt]
    simp only [parseXionAmount, hpf, hfloor]
  · show toFixed6 (((1000000 : ℕ) : ℚ) / 10 ^ 6) = "1.000000"
    rw [toFixed6_natCast 1000000]
    decide
  · have h1 : parseDecimalJS "1.000000" = some ⟨false, [1], [0, 0, 0, 0, 0, 0], 0⟩ := by decide
    have hpf : parseFloatJS "1.000000" = some (1 : ℚ) := by
      rw [parseFloatJS, h1, Option.map_some']
      norm_num [JSDecimal.toRat, digitsVal]
    have hfl : (⌊(1 : ℚ) * 10 ^ XION_CONFIG.decimals⌋ : ℤ) = 1000000 := by
      show (⌊(1 : ℚ) * 10 ^ 6⌋ : ℤ) = 1000000
      norm_num
    simp only [parseXionAmount, hpf, hfl]
    decide

/-- The configured gas price string `"0.025uxion"` parses to `0.025`
(the denom suffix is trailing garbage to `parseFloat`). -/
theorem parseFloatJS_gasPrice : parseFloatJS XION_CONFIG.gasPrice = some (0.025 : ℚ) := by
  have h1 : parseDecimalJS "0.025uxion" = some ⟨false, [0], [0, 2, 5], 0⟩ := by decide
  show parseFloatJS "0.025uxion" = some (0.025 : ℚ)
  rw [parseFloatJS, h1, Option.map_some']
  norm_num [JSDecimal.toRat, digitsVal]

/-- Claim C5: for every non-negative gas amount `g`, `calculateFee g` has a
single-denom amount list whose amount is `ceil(g × 0.025)` base units as a
string (the price read from the configured `"0.025uxion"`), and whose gas
limit is `g` itself as a string; for `g = 200000` the fee amount is 5000. -/
theorem calculateFee_spec (g : ℕ) :
    parseFloatJS XION_CONFIG.gasPrice = some (0.025 : ℚ)
    ∧ (calculateFee (g : ℤ)).amount
        = [⟨XION_CONFIG.denom, toString (⌈(g : ℚ) * (0.025 : ℚ)⌉ : ℤ)⟩]
    ∧ (calculateFee (g : ℤ)).gas = toString (g : ℤ)
    ∧ (calculateFee 200000).amount = [⟨"uxion", "5000"⟩] := by
  refine ⟨parseFloatJS_gasPrice, ?_, rfl, ?_⟩
  · simp only [calculateFee, parseFloatJS_gasPrice, Option.getD_some]
    have hcast : (((g : ℤ) : ℚ)) = (g : ℚ) := by push_cast; ring
    rw [hcast]
  · simp only [calculateFee, parseFloatJS_gasPrice, Option.getD_some]
    have h5000 : (⌈((200000 : ℤ) : ℚ) * (0.025 : ℚ)⌉ : ℤ) = 5000 := by norm_num
    rw [h5000]
    decide

/-- A fully concrete world oracle, used to witness the script-level
theorems. -/
def trivialWorld : SdkWorld :=
  { fromMnemonic := fun m p => .ok ⟨m ++ p⟩
    firstAccount := fun wl => ⟨"xion1first" ++ wl.seed⟩
    connectSigning := fun _ => .ok ()
    connectQuery := .ok ()
    getBalance := fun _ _ => .ok ⟨"uxion", "0"⟩
    execute := fun _ _ _ _ => .ok ⟨"HASH", 1, 1, 1, []⟩
    instantiate := fun _ _ _ _ _ => .ok ⟨"xion1contract", ⟨"HASH", 1, 1, 1, []⟩⟩
    queryOwnerOf := fun _ _ => .ok ⟨"xion1owner", []⟩
    queryNftInfo := fun _ _ => .ok ⟨none, none⟩
    queryTokens := fun _ _ _ => .ok ⟨[]⟩
    parseJsonAttrs := fun _ => none }

/-- Claim C6: with `CONTRACT_ADDRESS` unset (or empty — JS falsiness) the
mint script performs no external call at all (no wallet load, no client
connection, no contract execution), prints the usage diagnostic, and
returns normally rather than throwing. -/
theorem mintToken_missing_contract_guard (env : Env) (argv : Argv) (w : SdkWorld)
    (h : jsTruthy (env "CONTRACT_ADDRESS") = false) :
    (∀ e ∈ (mintToken env argv w).trace, e.isExternalCall = false)
    ∧ (mintToken env argv w).outcome = Outcome.returned
    ∧ Effect.logError "Error: CONTRACT_ADDRESS not set!" ∈ (mintToken env argv w).trace := by
  simp only [mintToken, h, if_true]
  refine ⟨?_, ?_, ?_⟩ <;> decide

/-- Witness for C6 at the empty environment and a concrete world. -/
theorem mintToken_missing_contract_guard_witness :
    (∀ e ∈ (mintToken (fun _ => none) (fun _ => none) trivialWorld).trace,
      e.isExternalCall = false)
    ∧ (mintToken (fun _ => none) (fun _ => none) trivialWorld).outcome = Outcome.returned
    ∧ Effect.logError "Error: CONTRACT_ADDRESS not set!" ∈
        (mintToken (fun _ => none) (fun _ => none) trivialWorld).trace :=
  mintToken_missing_contract_guard (fun _ => none) (fun _ => none) trivialWorld rfl

/-- Claim C7: `loadWallet` fails with the configuration error when the
mnemonic variable is absent (or empty), whatever the SDK derivation would
return — so no derivation is attempted; with a mnemonic present it derives
the wallet from that mnemonic and the configured address prefix. -/
theorem loadWallet_spec (env : Env) :
    ((env "MNEMONIC" = none ∨ env "MNEMONIC" = some "") →
      ∀ f, loadWallet env f = Except.error configurationError)
    ∧ (∀ m f, env "MNEMONIC" = some m → m ≠ "" →
      loadWallet env f = createWalletFromMnemonic f m
      ∧ createWalletFromMnemonic f m = f m XION_CONFIG.addressPrefix) := by
  constructor
  · rintro (h | h) f <;> simp [loadWallet, h]
  · intro m f hm hne
    refine ⟨?_, rfl⟩
    simp [loadWallet, hm, hne]

/-- Witness for C7: the empty environment fails with the configuration
error; a set mnemonic reaches the derivation oracle with the `xion`
prefix. -/
theorem loadWallet_spec_witness :
    loadWallet (fun _ => none) (fun m p => Except.ok ⟨m ++ p⟩) = Except.error configurationError
    ∧ loadWallet (fun k => if k = "MNEMONIC" then some "test words" else none)
        (fun m p => Except.ok ⟨m ++ p⟩)
      = Except.ok ⟨"test words" ++ "xion"⟩ := by
  constructor
  · exact (loadWallet_spec (fun _ => none)).1 (Or.inl rfl) _
  · have h := (loadWallet_spec (fun k => if k = "MNEMONIC" then some "test words" else none)).2
      "test words" (fun m p => Except.ok ⟨m ++ p⟩) rfl (by decide)
    rw [h.1, h.2]
    rfl

/-- Counterexample to claim C8: in `monitor-transaction.js` the wait flag
can be supplied both as `WAIT` (environment) and as `--wait` (positional
argument), yet with `WAIT="false"` set (non-empty) the flag still depends
on the command line: with `--wait` present it is `true`, without it
`false`.  So the command-line argument is consulted even though the
environment variable is set and non-empty. -/
theorem monitorWaitFlag_cli_overrides_env :
    monitorWaitFlag (fun k => if k = "WAIT" then some "false" else none)
      (fun i => if i = 3 then some "--wait" else none) = true
    ∧ monitorWaitFlag (fun k => if k = "WAIT" then some "false" else none)
      (fun _ => none) = false
    ∧ (fun k => if k = "WAIT" then some "false" else none : Env) "WAIT" = some "false"
    ∧ ("false" : String) ≠ "" := by
  refine ⟨rfl, rfl, rfl, by decide⟩

/-- Claim C8 (amended): every string-valued parameter in the repository
that can be supplied both as an environment variable and as a positional
command-line argument — `TOKEN_ID`, `OWNER_ADDRESS` and `TOKEN_URI` in
`mint-token.js`; `TOKEN_ID` and `RECIPIENT` in `transfer-nft.js`;
`RECIPIENT` and `AMOUNT` in `transfer-gas.js`; `TX_HASH` in
`monitor-transaction.js`; `TOKEN_ID` and `EXPECTED_OWNER` in
`verify-ownership.js`; `TX_TYPE` in `check-gas-fee.js`; `TX_TYPE` and
`OUTPUT_FILE` in `sign-transaction.js`; `MESSAGE` in `sign-message.js` —
uses the environment value whenever it is set and non-empty, consulting
the command line only otherwise.  The single exception, forced by the
counterexample, is the monitor script's boolean wait flag: it is the
disjunction `WAIT === "true" || argv[3] === "--wait"`, so `--wait` takes
effect even when `WAIT` is set (non-empty) to another value. -/
theorem env_precedence_params (env : Env) (argv : Argv) (v : String) (hv : v ≠ "") :
    (env "TOKEN_ID" = some v → mintTokenIdParam env argv = v)
    ∧ (env "OWNER_ADDRESS" = some v → mintOwnerAddressParam env argv = some v)
    ∧ (env "TOKEN_URI" = some v → mintTokenUriParam env argv = v)
    ∧ (env "TOKEN_ID" = some v → transferNftTokenIdParam env argv = some v)
    ∧ (env "RECIPIENT" = some v → transferNftRecipientParam env argv = some v)
    ∧ (env "RECIPIENT" = some v → transferGasRecipientParam env argv = some v)
    ∧ (env "AMOUNT" = some v → transferGasAmountParam env argv = some v)
    ∧ (env "TX_HASH" = some v → monitorTxHashParam env argv = some v)
    ∧ (env "TOKEN_ID" = some v → verifyTokenIdParam env argv = some v)
    ∧ (env "EXPECTED_OWNER" = some v → verifyExpectedOwnerParam env argv = some v)
    ∧ (env "TX_TYPE" = some v → checkGasTxTypeParam env argv = v)
    ∧ (env "TX_TYPE" = some v → signTxTypeParam env argv = v)
    ∧ (env "OUTPUT_FILE" = some v → signTxOutputFileParam env argv = v)
    ∧ (env "MESSAGE" = some v → ∀ argvTail, signMessageParam env argvTail = v)
    ∧ (env "WAIT" = some "true" → monitorWaitFlag env argv = true)
    ∧ (env "WAIT" ≠ some "true" → monitorWaitFlag env argv = (argv 3 == some "--wait")) := by
  refine ⟨?_, ?_, ?_, ?_, ?_, ?_, ?_, ?_, ?_, ?_, ?_, ?_, ?_, ?_, ?_, ?_⟩
  · intro h; simp [mintTokenIdParam, jsOr, jsOrElse, h, hv]
  · intro h; simp [mintOwnerAddressParam, jsOr, h, hv]
  · intro h; simp [mintTokenUriParam, jsOr, jsOrElse, h, hv]
  · intro h; simp [transferNftTokenIdParam, jsOr, h, hv]
  · intro h; simp [transferNftRecipientParam, jsOr, h, hv]
  · intro h; simp [transferGasRecipientParam, jsOr, h, hv]
  · intro h; simp [transferGasAmountParam, jsOr, h, hv]
  · intro h; simp [monitorTxHashParam, jsOr, h, hv]
  · intro h; simp [verifyTokenIdParam, jsOr, h, hv]
  · intro h; simp [verifyExpectedOwnerParam, jsOr, h, hv]
  · intro h; simp [checkGasTxTypeParam, jsOr, jsOrElse, h, hv]
  · intro h; simp [signTxTypeParam, jsOr, jsOrElse, h, hv]
  · intro h; simp [signTxOutputFileParam, jsOr, jsOrElse, h, hv]
  · intro h; intro argvTail; simp [signMessageParam, jsOrElse, h, hv]
  · intro h; simp [monitorWaitFlag, h]
  · intro h
    have : (env "WAIT" == some "true") = false := by
      simp only [beq_eq_false_iff_ne, ne_eq]
      exact h
    simp [monitorWaitFlag, this]

/-- Witness for the amended C8 at a concrete environment: an environment
setting `TOKEN_ID`, `TX_TYPE` and `MESSAGE` beats competing positional
arguments in every script that reads them, and the wait flag follows
`argv[3]` when `WAIT` is not `"true"`. -/
theorem env_precedence_params_witness :
    mintTokenIdParam
      (fun k => if k = "TOKEN_ID" ∨ k = "TX_TYPE" ∨ k = "MESSAGE" then some "7" else none)
      (fun i => if i = 2 then some "9" else none) = "7"
    ∧ verifyTokenIdParam
      (fun k => if k = "TOKEN_ID" ∨ k = "TX_TYPE" ∨ k = "MESSAGE" then some "7" else none)
      (fun i => if i = 2 then some "9" else none) = some "7"
    ∧ checkGasTxTypeParam
      (fun k => if k = "TOKEN_ID" ∨ k = "TX_TYPE" ∨ k = "MESSAGE" then some "7" else none)
      (fun i => if i = 2 then some "9" else none) = "7"
    ∧ signMessageParam
      (fun k => if k = "TOKEN_ID" ∨ k = "TX_TYPE" ∨ k = "MESSAGE" then some "7" else none)
      ["hello", "world"] = "7"
    ∧ monitorWaitFlag
      (fun k => if k = "TOKEN_ID" ∨ k = "TX_TYPE" ∨ k = "MESSAGE" then some "7" else none)
      (fun i => if i = 2 then some "9" else none) = false := by
  have h := env_precedence_params
    (fun k => if k = "TOKEN_ID" ∨ k = "TX_TYPE" ∨ k = "MESSAGE" then some "7" else none)
    (fun i => if i = 2 then some "9" else none) "7" (by decide)
  obtain ⟨h1, _, _, _, _, _, _, _, h9, _, h11, _, _, h14, _, h16⟩ := h
  refine ⟨h1 (by decide), h9 (by decide), h11 (by decide), h14 (by decide) _, ?_⟩
  rw [h16 (by decide)]
  decide

/-- Claim C9: the ownership-verification script leaves the world exactly as
it found it (it only issues reads), so a second run against the unchanged
chain state reproduces the first run entirely — in particular the owner
and metadata fields are identical. -/
theorem verifyOwnership_idempotent (env : Env) (argv : Argv) (w : SdkWorld) :
    (verifyOwnership env argv w).2 = w
    ∧ (verifyOwnership env argv ((verifyOwnership env argv w).2)).1
        = (verifyOwnership env argv w).1
    ∧ (verifyOwnership env argv ((verifyOwnership env argv w).2)).1.owner
        = (verifyOwnership env argv w).1.owner
    ∧ (verifyOwnership env argv ((verifyOwnership env argv w).2)).1.metadata
        = (verifyOwnership env argv w).1.metadata := by
  have hw : (verifyOwnership env argv w).2 = w := by
    simp only [verifyOwnership, queryOwnerOfCall, queryNftInfoCall, queryTokensCall]
    repeat' split <;> try rfl
  rw [hw]
  exact ⟨rfl, rfl, rfl, rfl⟩

/-- Claim C10: once the deploy script has fetched the wallet balance, it
returns early with the funding warning and performs no instantiate call
exactly when the parsed balance amount is zero; for any strictly positive
balance — even one too small to cover the fee — it proceeds to the
instantiate call. -/
theorem deployContract_zero_balance_guard (env : Env) (w : SdkWorld)
    (wl : Wallet) (bal : Coin)
    (hload : loadWallet env w.fromMnemonic = .ok wl)
    (hconn : w.connectSigning wl = .ok ())
    (hbal : w.getBalance (w.firstAccount wl).address XION_CONFIG.denom = .ok bal) :
    (parseIntJS bal.amount = some 0 →
      (deployContract env w).outcome = Outcome.returned
      ∧ (∀ s c m l a, Effect.callInstantiateContract s c m l a ∉ (deployContract env w).trace)
      ∧ Effect.log "\nWarning: Wallet has zero balance!" ∈ (deployContract env w).trace)
    ∧ (∀ n : Int, parseIntJS bal.amount = some n → 0 < n →
      Effect.callInstantiateContract (w.firstAccount wl).address
        XION_CONFIG.cw721MetadataOnchainCodeId
        ⟨jsOrElse (env "NFT_NAME") "My NFT Collection",
         jsOrElse (env "NFT_SYMBOL") "MNFT",
         (w.firstAccount wl).address⟩
        (jsOrElse (env "CONTRACT_LABEL") "my-nft-contract")
        (adminOrUndefined (w.firstAccount wl).address)
        ∈ (deployContract env w).trace) := by
  constructor
  · intro h0
    simp only [deployContract, hload, hconn, hbal, h0, if_pos]
    refine ⟨?_, ?_, ?_⟩
    · first
      | rfl
      | trivial
    · intro s c m l a
      simp
    · simp
  · intro n hn hpos
    have hne : parseIntJS bal.amount ≠ some 0 := by
      rw [hn]
      simp
      omega
    simp only [deployContract, hload, hconn, hbal, if_neg hne]
    split <;> simp

/-- Witness for C10: a concrete world whose balance reads `"0"` warns and
never instantiates. -/
theorem deployContract_zero_balance_guard_witness :
    (deployContract (fun k => if k = "MNEMONIC" then some "m" else none) trivialWorld).outcome
      = Outcome.returned
    ∧ Effect.log "\nWarning: Wallet has zero balance!" ∈
        (deployContract (fun k => if k = "MNEMONIC" then some "m" else none) trivialWorld).trace
    ∧ Effect.callInstantiateContract "a" 525 ⟨"n", "s", "a"⟩ "l" none ∉
        (deployContract (fun k => if k = "MNEMONIC" then some "m" else none) trivialWorld).trace := by
  have h := deployContract_zero_balance_guard
    (fun k => if k = "MNEMONIC" then some "m" else none) trivialWorld
    ⟨"m" ++ "xion"⟩ ⟨"uxion", "0"⟩ rfl rfl rfl
  have h0 := h.1 (by decide)
  exact ⟨h0.1, h0.2.2, h0.2.1 "a" 525 ⟨"n", "s", "a"⟩ "l" none⟩
